import Mathlib

/-
Verification of the dynamic-link call engine, FFI entry points and cache
operations of the wasmvm repository (files libwasmvm/src/api.rs,
libwasmvm/src/dynamic_link.rs, src/cache.rs, src/api.rs).

The Rust code is embedded shallowly.  Every interaction the code has with a
collaborator outside the repository (the Go host behind the vtable, the
cosmwasm-vm instance, the guest module) is represented by an oracle field of a
"world" structure holding the result that collaborator call would produce; the
control flow of the Rust functions over those results is translated clause by
clause.  Machine integers (u64/usize) are modelled as Nat; the places where the
code relies on u64 semantics are modelled explicitly: `checked_sub`, and the
release-build wrapping of the u64 addition `used_gas + instantiate_cost` in
`contract_call` (`wrapping_add`, reduction mod 2^64).
-/

namespace Wasmvm

/-- Byte buffers crossing the FFI or region boundary (Vec<u8>). -/
abbrev Bytes := List Nat

/-- Mirrors cosmwasm-vm `GasInfo`: the externally visible cost and the
externally metered cost.  `GasInfo::with_cost` sets only the first field. -/
structure GasInfo where
  cost : Nat
  ext_used : Nat
deriving Repr, DecidableEq

/-- Mirrors `GasInfo::with_cost`. -/
def GasInfo.with_cost (c : Nat) : GasInfo := { cost := c, ext_used := 0 }

/-- Mirrors `GasInfo::free`. -/
def GasInfo.free : GasInfo := { cost := 0, ext_used := 0 }

/-- Failure modes of the value-region marshaler (`read_region_vals_from_env`,
`write_value_to_env` in cosmwasm-vm): a region descriptor out of bounds, the
cumulative region length over the configured budget, a failed destination
allocation, or any other VmError rendered as a message. -/
inductive MarshalErr
  | outOfBounds
  | overBudget
  | allocFail
  | other (msg : String)
deriving Repr, DecidableEq

/-- The `Display` rendering of a marshaling failure, as it is interpolated
into error messages by `BackendError::dynamic_link_err(e)`. -/
def MarshalErr.msg : MarshalErr → String
  | .outOfBounds => "region out of bounds"
  | .overBudget => "regions length exceeds the maximum"
  | .allocFail => "allocation failed"
  | .other m => m

/-- Mirrors the `BackendError` constructors used by `contract_call` in
libwasmvm/src/api.rs: `dynamic_link_err`, `out_of_gas`, `unknown`,
`user_err`, and the errors produced by `GoError::into_result` on a non-ok
return from the Go host (collected here as `foreignErr`). -/
inductive BackendError
  | dynamicLinkErr (msg : String)
  | outOfGas
  | unknownErr (msg : String)
  | userErr (msg : String)
  | foreignErr (msg : String)
deriving Repr, DecidableEq

/-- Rust `u64::checked_sub` on the Nat embedding. -/
def checked_sub (a b : Nat) : Option Nat :=
  if b ≤ a then some (a - b) else none

/-- 2^64, the modulus of u64 arithmetic, as a literal. -/
def U64_MOD : Nat := 18446744073709551616

/-- The plain u64 addition `a + b` as a release build computes it: wrapping
mod 2^64.  `contract_call` uses it for `used_gas + instantiate_cost`. -/
def wrapping_add (a b : Nat) : Nat := (a + b) % U64_MOD

/-- The wrapped sum never exceeds the plain sum. -/
theorem wrapping_add_le_sum (a b : Nat) : wrapping_add a b ≤ a + b :=
  Nat.mod_le _ _

/-- Lookup in the deserialized callable-points-properties map
(`HashMap<String, CalleeProperty>` keyed by function name, value the
`is_read_only` flag), modelled as an association list. -/
def lookup_prop : List (String × Bool) → String → Option Bool
  | [], _ => none
  | (k, v) :: rest, n => if k = n then some v else lookup_prop rest n

/-- A loop of `write_value_to_env` calls into one instance, one call per
buffer, indexed by call sequence number; the first failure aborts the loop,
exactly as the `for` loops over `input_datas` / `ret_datas` in the source. -/
def write_vals (f : Nat → Except MarshalErr Nat) : Nat → List Bytes → Except MarshalErr (List Nat)
  | _, [] => .ok []
  | i, _ :: rest =>
    match f i with
    | .error e => .error e
    | .ok p =>
      match write_vals f (i + 1) rest with
      | .error e => .error e
      | .ok ps => .ok (p :: ps)

/-- Oracle for the callee-side steps of `get_read_write_permission`
(libwasmvm/src/api.rs): the guest call of the fixed introspection export
`_get_callable_points_properties` (error = the call trap, ok = returned
region pointers), the marshaling of its return regions out of the callee
memory, and the serde parse of the first returned buffer into the
callable-points-properties map. -/
structure PermissionWorld where
  introspection_call : Except String (List Nat)
  introspection_read : Except MarshalErr (List Bytes)
  parsed_props : Except String (List (String × Bool))

/-- Mirrors `get_read_write_permission` in libwasmvm/src/api.rs.  The callee
instance is first set storage-readonly, the introspection export is invoked,
its single return value is read out and parsed; an undeclared function name
is an error, and a ReadOnly caller (`is_caller_permission = true`) invoking a
function declared read-write (`is_read_only = false`) is the permission
escalation error.  On success it returns the declared `is_read_only` flag. -/
def get_read_write_permission (pw : PermissionWorld) (is_caller_permission : Bool)
    (func_name : String) : Except BackendError Bool :=
  match pw.introspection_call with
  | .error e => .error (.dynamicLinkErr e)
  | .ok _ =>
    match pw.introspection_read with
    | .error e => .error (.dynamicLinkErr e.msg)
    | .ok _ =>
      match pw.parsed_props with
      | .error e => .error (.dynamicLinkErr e)
      | .ok callee_func_map =>
        match lookup_prop callee_func_map func_name with
        | none => .error (.dynamicLinkErr ("callee_func_map has not key:" ++ func_name))
        | some is_read_only =>
          if is_caller_permission && !is_read_only then
            .error (.dynamicLinkErr
              "It is not possible to inherit from read-only permission to read-write permission")
          else
            .ok is_read_only

/-- Observable effects of one `contract_call` run: whether the callee
instance was created, the gas limit handed to `get_instance` (if reached),
whether the introspection export and the named export were invoked, the
callee storage-readonly flag at exit, and the call chain installed into the
callee Environment by the callstack guard (if it ran and passed). -/
structure CallEffects where
  instantiated : Bool
  gas_limit_given : Option Nat
  introspection_invoked : Bool
  named_invoked : Bool
  callee_readonly_flag : Option Bool
  callee_callstack : Option (List String)
deriving Repr, DecidableEq

/-- Effects before anything has happened. -/
def CallEffects.init : CallEffects :=
  { instantiated := false, gas_limit_given := none, introspection_invoked := false,
    named_invoked := false, callee_readonly_flag := none, callee_callstack := none }

/-- Result of one `contract_call` run: the `BackendResult` pair (value or
`BackendError`, and the `GasInfo`), plus the observable effects. -/
structure CallResult where
  ret : Except BackendError (List Nat)
  gas : GasInfo
  effects : CallEffects

/-- Oracle world for one `contract_call` run (libwasmvm/src/api.rs).  Each
field is the outcome of the corresponding collaborator call, in source
order: reading the caller argument regions, the `get_contract_env` host call
(its go-error status and message, the two reported gas numbers, and its four
out-parameters), the caller instance state, `cache.get_instance`, the
introspection oracle, `try_pass_callstack`, the `write_value_to_env` calls
into the callee (indexed 0 for the env, 1.. for the arguments), the guest
call of the named export, reading its return regions, the
`write_value_to_env` calls back into the caller, and the callee gas report
(`used_internally`). -/
structure CallWorld where
  read_inputs : Except MarshalErr (List Bytes)
  host_go_ok : Bool
  host_err_msg : String
  host_used_gas : Nat
  host_instantiate_cost : Nat
  host_contract_env : Option Bytes
  host_cache_ok : Bool
  host_checksum_ok : Bool
  caller_gas_left : Nat
  caller_readonly : Bool
  caller_chain : List String
  caller_addr : String
  get_instance : Except String Unit
  perm : PermissionWorld
  callstack_pass : Except String Unit
  write_to_callee : Nat → Except MarshalErr Nat
  call_fn : Except String (List Nat)
  read_outputs : Except MarshalErr (List Bytes)
  write_to_caller : Nat → Except MarshalErr Nat
  callee_used_internally : Nat

/-- The tail of `contract_call` starting after the callstack guard passed:
write the serialized env into the callee, write the argument buffers, invoke
the named export, read its return regions out, write them back into the
caller, and fold `create_gas_report().used_internally` into the gas.  The
fold is the statement `gas_info.cost += ...` placed after the `match` on the
guest call in the source: the marshaling failures inside the `Ok` branch
return from the function early and therefore skip it, while the guest-call
`Err` branch and the success path flow through it. -/
def contract_call_invoke (w : CallWorld) (gas_info : GasInfo) (eff : CallEffects)
    (input_datas : List Bytes) : CallResult :=
  match w.write_to_callee 0 with
  | .error e => ⟨.error (.dynamicLinkErr e.msg), gas_info, eff⟩
  | .ok _env_ptr =>
    match write_vals w.write_to_callee 1 input_datas with
    | .error e => ⟨.error (.dynamicLinkErr e.msg), gas_info, eff⟩
    | .ok _input_ptrs =>
      match w.call_fn with
      | .error e =>
        ⟨.error (.dynamicLinkErr e),
         { gas_info with cost := gas_info.cost + w.callee_used_internally },
         { eff with named_invoked := true }⟩
      | .ok _rets =>
        match w.read_outputs with
        | .error e =>
          ⟨.error (.dynamicLinkErr e.msg), gas_info, { eff with named_invoked := true }⟩
        | .ok ret_datas =>
          match write_vals w.write_to_caller 0 ret_datas with
          | .error e =>
            ⟨.error (.dynamicLinkErr e.msg), gas_info, { eff with named_invoked := true }⟩
          | .ok ret_ptrs =>
            ⟨.ok ret_ptrs,
             { gas_info with cost := gas_info.cost + w.callee_used_internally },
             { eff with named_invoked := true }⟩

/-- Mirrors `contract_call` in libwasmvm/src/api.rs (the dynamic-link
engine).  Control flow in source order: read the caller argument regions
(failure is `dynamic_link_err` with `GasInfo::free`); call
`get_contract_env`; `gas_info = GasInfo::with_cost(used_gas)`; compute
`gas_limit = caller.get_gas_left().checked_sub(used_gas + instantiate_cost)`
— the inner u64 addition wraps mod 2^64 as in a release build
(`wrapping_add`) — and fail `out_of_gas` on underflow of the checked
subtraction before anything is instantiated; then
check the go error, the contract env, the cache pointer and the checksum;
`get_instance` with the computed gas limit; `gas_info.cost +=
instantiate_cost`; run `get_read_write_permission` (which first sets the
callee storage-readonly and invokes the introspection export) and install
the returned declared flag with `set_storage_readonly`; run
`try_pass_callstack` (failure is `user_err`); then the invoke tail.

The effect `callee_callstack := caller_chain ++ [caller_addr]` on a passing
guard is modelled from the spec: `Environment::try_pass_callstack` lives in
the cosmwasm-vm dependency, not under src/; per the spec the callee
Environment must receive the call chain equal to the caller chain extended
by exactly the caller address, any other shape being rejected. -/
def contract_call (w : CallWorld) (func_name : String) : CallResult :=
  match w.read_inputs with
  | .error e => ⟨.error (.dynamicLinkErr e.msg), GasInfo.free, CallEffects.init⟩
  | .ok input_datas =>
    let gas_info := GasInfo.with_cost w.host_used_gas
    match checked_sub w.caller_gas_left (wrapping_add w.host_used_gas w.host_instantiate_cost) with
    | none => ⟨.error .outOfGas, gas_info, CallEffects.init⟩
    | some gas_limit =>
      if w.host_go_ok then
        match w.host_contract_env with
        | none => ⟨.error (.unknownErr "invalid contract env"), gas_info, CallEffects.init⟩
        | some _contract_env =>
          if w.host_cache_ok then
            if w.host_checksum_ok then
              match w.get_instance with
              | .error e =>
                ⟨.error (.unknownErr e), gas_info,
                 { CallEffects.init with gas_limit_given := some gas_limit }⟩
              | .ok _ =>
                let gas_info := { gas_info with cost := gas_info.cost + w.host_instantiate_cost }
                let eff1 : CallEffects :=
                  { instantiated := true, gas_limit_given := some gas_limit,
                    introspection_invoked := true, named_invoked := false,
                    callee_readonly_flag := some true, callee_callstack := none }
                match get_read_write_permission w.perm w.caller_readonly func_name with
                | .error e => ⟨.error e, gas_info, eff1⟩
                | .ok is_read_only =>
                  let eff2 := { eff1 with callee_readonly_flag := some is_read_only }
                  match w.callstack_pass with
                  | .error e => ⟨.error (.userErr e), gas_info, eff2⟩
                  | .ok _ =>
                    let eff3 :=
                      { eff2 with callee_callstack := some (w.caller_chain ++ [w.caller_addr]) }
                    contract_call_invoke w gas_info eff3 input_datas
            else ⟨.error (.unknownErr "invalid checksum"), gas_info, CallEffects.init⟩
          else ⟨.error (.unknownErr "failed to_cache"), gas_info, CallEffects.init⟩
      else ⟨.error (.foreignErr w.host_err_msg), gas_info, CallEffects.init⟩

/-- Mirrors the constructors of `crate::error::Error` used by the FFI layer
(cache.rs, dynamic_link.rs).  error.rs itself is not under src/, so the
constructors are taken from the call sites: `Error::panic()` for a caught
unwind, `unset_arg` / `empty_arg` for missing FFI arguments, a serde parse
failure and a cosmwasm-vm error propagated by `?`, the checksum length
failure of `Checksum::try_from`, `dynamic_link_err`, `invalid_events` and
`invalid_attributes`. -/
inductive FfiError
  | panicErr
  | unsetArg (name : String)
  | emptyArg (name : String)
  | parseErr (msg : String)
  | vmErr (msg : String)
  | invalidChecksum
  | dynamicLinkErr (msg : String)
  | invalidEvents (msg : String)
  | invalidAttributes (msg : String)
deriving Repr, DecidableEq

/-- Oracle world for one `do_call_callable_point` run
(libwasmvm/src/dynamic_link.rs), one field per collaborator call in source
order: the `name` byte view and its serde parse, the `args` view and parse,
presence of the `gas_used` out-parameter, the `checksum` view, the
`callstack` view and parse, the `env` view, `cache.get_instance`,
`set_dynamic_callstack`, `set_callee_permission` (both in the cosmwasm-vm
dependency, kept abstract as their verdicts), the `write_value_to_env`
calls into the instance (0 = env, 1.. = args), the guest call of the named
callable point, the read of its return regions, presence of the `events`
and `attributes` out-parameters, the serde serialization of the collected
events and attributes, and the gas report (`used_internally`). -/
structure CcpWorld where
  name_view : Option Bytes
  name_parse : Except String String
  args_view : Option Bytes
  args_parse : Except String (List Bytes)
  gas_used_present : Bool
  checksum_view : Option Bytes
  callstack_view : Option Bytes
  callstack_parse : Except String (List String)
  env_view : Option Bytes
  get_instance : Except String Unit
  set_callstack : Except String Unit
  set_permission : Except String Unit
  write_to_callee : Nat → Except MarshalErr Nat
  call_function : Except String (List Nat)
  read_results : Except MarshalErr (List Bytes)
  events_present : Bool
  attributes_present : Bool
  events_ser : Except String Bytes
  attributes_ser : Except String Bytes
  used_internally : Nat

/-- Result of one `do_call_callable_point` run: the function result and the
final state of the three out-parameters (`none` = never written; the
`events` / `attributes` / `gas_used` pointees are written only where the
source assigns them). -/
structure CcpOut where
  result : Except FfiError (Option Bytes)
  events_out : Option Bytes
  attributes_out : Option Bytes
  gas_used_out : Option Nat
deriving Repr

/-- An early `return Err(..)` of `do_call_callable_point`: no out-parameter
has been written. -/
def CcpOut.fail (e : FfiError) : CcpOut :=
  { result := .error e, events_out := none, attributes_out := none, gas_used_out := none }

/-- The tail of `do_call_callable_point` after the guest call produced
`call_result`: when `is_readonly` is false the `events` and `attributes`
out-parameters must be present (a missing one is `empty_arg`), the events
and attributes are serialized (failures are `invalid_events` /
`invalid_attributes`, returned before anything is written) and both
out-parameters are assigned; the `gas_used` out-parameter is then assigned
`used_internally` on every completing path. -/
def ccp_finish (is_readonly : Bool) (w : CcpWorld) (call_result : Option Bytes) : CcpOut :=
  if is_readonly then
    { result := .ok call_result, events_out := none, attributes_out := none,
      gas_used_out := some w.used_internally }
  else
    if w.events_present then
      if w.attributes_present then
        match w.events_ser with
        | .error e => CcpOut.fail (.invalidEvents e)
        | .ok ev =>
          match w.attributes_ser with
          | .error e => CcpOut.fail (.invalidAttributes e)
          | .ok av =>
            { result := .ok call_result, events_out := some ev, attributes_out := some av,
              gas_used_out := some w.used_internally }
      else CcpOut.fail (.emptyArg "attributes")
    else CcpOut.fail (.emptyArg "events")

/-- The result-arity handling of `do_call_callable_point` together with the
finish: read the return regions of the guest call out of the instance (a
failure propagates via `?`), then zero returned values give `Ok(None)`, one
gives `Ok(Some(bytes))`, and two or more are the dynamic-link error; the
error cases propagate via `?` before the events section runs. -/
def ccp_handle_results (is_readonly : Bool) (w : CcpWorld) : CcpOut :=
  match w.read_results with
  | .error e => CcpOut.fail (.vmErr e.msg)
  | .ok result_datas =>
    match result_datas with
    | [] => ccp_finish is_readonly w none
    | [b] => ccp_finish is_readonly w (some b)
    | _ :: _ :: _ => CcpOut.fail (.dynamicLinkErr "unexpected more than 1 returning values")

/-- Mirrors `do_call_callable_point` in libwasmvm/src/dynamic_link.rs, in
source order: parse `name` and `args`, require the `gas_used` out-parameter,
read the checksum (length 32), parse the callstack, read `env`; make the
instance, set its serialized env and dynamic callstack, set the callee
permission; write the env and the argument buffers into the instance;
invoke the named callable point (a trap is `dynamic_link_err`), and handle
its results (`ccp_handle_results`). -/
def do_call_callable_point (is_readonly : Bool) (w : CcpWorld) : CcpOut :=
  match w.name_view with
  | none => CcpOut.fail (.unsetArg "name")
  | some _ =>
    match w.name_parse with
    | .error e => CcpOut.fail (.parseErr e)
    | .ok _name =>
      match w.args_view with
      | none => CcpOut.fail (.unsetArg "args")
      | some _ =>
        match w.args_parse with
        | .error e => CcpOut.fail (.parseErr e)
        | .ok args =>
          if w.gas_used_present then
            match w.checksum_view with
            | none => CcpOut.fail (.unsetArg "checksum")
            | some cb =>
              if cb.length = 32 then
                match w.callstack_view with
                | none => CcpOut.fail (.unsetArg "callstack")
                | some _ =>
                  match w.callstack_parse with
                  | .error e => CcpOut.fail (.parseErr e)
                  | .ok _callstack =>
                    match w.env_view with
                    | none => CcpOut.fail (.unsetArg "env")
                    | some _env =>
                      match w.get_instance with
                      | .error e => CcpOut.fail (.vmErr e)
                      | .ok _ =>
                        match w.set_callstack with
                        | .error e => CcpOut.fail (.vmErr e)
                        | .ok _ =>
                          match w.set_permission with
                          | .error e => CcpOut.fail (.vmErr e)
                          | .ok _ =>
                            match w.write_to_callee 0 with
                            | .error e => CcpOut.fail (.vmErr e.msg)
                            | .ok _env_ptr =>
                              match write_vals w.write_to_callee 1 args with
                              | .error e => CcpOut.fail (.vmErr e.msg)
                              | .ok _arg_ptrs =>
                                match w.call_function with
                                | .error e => CcpOut.fail (.dynamicLinkErr e)
                                | .ok _results => ccp_handle_results is_readonly w
              else CcpOut.fail .invalidChecksum
          else CcpOut.fail (.emptyArg "gas_used")

/-- Outcome of running the inner `do_*` body of an FFI entry point inside
`catch_unwind`: a value, a typed error, or an unexpected unwind. -/
inductive Outcome (α : Type)
  | ok (a : α)
  | err (e : FfiError)
  | panics

/-- Mirrors `catch_unwind(AssertUnwindSafe(..)).unwrap_or_else(|_|
Err(Error::panic()))`: the fault boundary of every FFI entry point, turning
an unwind into the typed `Error::panic()` instead of propagating it. -/
def catch_outcome {α : Type} : Outcome α → Except FfiError α
  | .ok a => .ok a
  | .err e => .error e
  | .panics => .error .panicErr

/-- Modelled from the spec: `handle_c_error_default` / `handle_c_error_binary`
/ `set_error` + `clear_error` from error.rs, which is not under src/.  On Ok
the error-message out-parameter is cleared and the value returned; on Err the
typed error is written into the error-message out-parameter and the default
value returned.  The pair is (returned value, error message written). -/
def handle_c_error {α : Type} (r : Except FfiError α) (default : α) : α × Option FfiError :=
  match r with
  | .ok a => (a, none)
  | .error e => (default, some e)

/-- Mirrors the `init_cache` FFI entry point (cache.rs): the inner body runs
inside `catch_unwind`; on Ok the error is cleared and the cache pointer
returned (modelled `some ()`), on Err the error is set and null returned. -/
def ffi_init_cache (inner : Outcome Unit) : Option Unit × Option FfiError :=
  match catch_outcome inner with
  | .ok _ => (some (), none)
  | .error e => (none, some e)

/-- Mirrors the `save_wasm` FFI entry point (cache.rs): a null cache pointer
is `unset_arg`, otherwise the inner body runs inside `catch_unwind`; the
result goes through `handle_c_error_binary` (default: empty bytes). -/
def ffi_save_wasm (cache_present : Bool) (inner : Outcome Bytes) : Bytes × Option FfiError :=
  handle_c_error (if cache_present then catch_outcome inner else .error (.unsetArg "cache")) []

/-- Mirrors the `load_wasm` FFI entry point (cache.rs), same wrapper shape
as `save_wasm`. -/
def ffi_load_wasm (cache_present : Bool) (inner : Outcome Bytes) : Bytes × Option FfiError :=
  handle_c_error (if cache_present then catch_outcome inner else .error (.unsetArg "cache")) []

/-- Mirrors the `pin` FFI entry point (cache.rs): wrapper around the inner
body via `catch_unwind` and `handle_c_error_default`. -/
def ffi_pin (cache_present : Bool) (inner : Outcome Unit) : Unit × Option FfiError :=
  handle_c_error (if cache_present then catch_outcome inner else .error (.unsetArg "cache")) ()

/-- Mirrors the `unpin` FFI entry point (cache.rs), same wrapper shape as
`pin`. -/
def ffi_unpin (cache_present : Bool) (inner : Outcome Unit) : Unit × Option FfiError :=
  handle_c_error (if cache_present then catch_outcome inner else .error (.unsetArg "cache")) ()

/-- Mirrors the `analyze_code` FFI entry point (cache.rs): the
`AnalysisReport` is modelled by its `has_ibc_entry_points` field; on Err the
error is set and the default report returned. -/
def ffi_analyze_code (cache_present : Bool) (inner : Outcome Bool) : Bool × Option FfiError :=
  match (if cache_present then catch_outcome inner else .error (.unsetArg "cache") :
      Except FfiError Bool) with
  | .ok v => (v, none)
  | .error e => (false, some e)

/-- Mirrors the `call_callable_point` FFI entry point
(libwasmvm/src/dynamic_link.rs): a null cache pointer is `unset_arg`,
otherwise `do_call_callable_point` runs inside `catch_unwind` with unwinds
mapped to `Error::panic()`; the result goes through `handle_c_error_default`
(default `None`), which is then serialized into the returned vector
(modelled as the option itself). -/
def ffi_call_callable_point (cache_present : Bool) (inner : Outcome (Option Bytes)) :
    Option Bytes × Option FfiError :=
  handle_c_error (if cache_present then catch_outcome inner else .error (.unsetArg "cache")) none

/-- Modelled from the spec: the pinned set of the compiled-module cache
(`Cache` lives in the cosmwasm-vm dependency, not under src/).  Only the set
of pinned checksums is represented, since per the spec `unpin` touches only
pin state: it restores default eviction eligibility and unpinning an
unpinned or missing entry is a no-op, not an error. -/
structure CacheState where
  pinned : List Bytes
deriving Repr, DecidableEq

/-- Modelled from the spec: `Cache::unpin` removes the checksum from the
pinned set and succeeds also when it was not pinned or is unknown. -/
def cache_unpin (s : CacheState) (c : Bytes) : CacheState :=
  { s with pinned := s.pinned.filter (fun x => x ≠ c) }

/-- Mirrors `do_unpin` (cache.rs): an unset checksum view is `unset_arg`, a
view of length other than 32 fails the `Checksum::try_from` conversion, and
otherwise `cache.unpin` runs. -/
def do_unpin (s : CacheState) (checksum_view : Option Bytes) :
    CacheState × Except FfiError Unit :=
  match checksum_view with
  | none => (s, .error (.unsetArg "checksum"))
  | some c =>
    if c.length = 32 then (cache_unpin s c, .ok ())
    else (s, .error .invalidChecksum)

/-- The `unpin` FFI entry point applied to an explicit cache state: the
wrapper of `ffi_unpin` around the concrete `do_unpin` body, returning the
new cache state and the error message written (if any). -/
def unpin_with_state (cache_present : Bool) (s : CacheState) (checksum_view : Option Bytes) :
    CacheState × Option FfiError :=
  if cache_present then
    match do_unpin s checksum_view with
    | (s2, r) => (s2, (handle_c_error r ()).2)
  else (s, some (.unsetArg "cache"))

/-- Gas state of `contract_call` at the point where the callee instance
exists: the host-reported resolution gas plus the instantiate cost. -/
def guarded_gas (w : CallWorld) : GasInfo :=
  { cost := w.host_used_gas + w.host_instantiate_cost, ext_used := 0 }

/-- Effects of `contract_call` once the permission step returned the
declared flag `b` and the callstack guard passed. -/
def guarded_effects (w : CallWorld) (b : Bool) : CallEffects :=
  { instantiated := true,
    gas_limit_given :=
      some (w.caller_gas_left - wrapping_add w.host_used_gas w.host_instantiate_cost),
    introspection_invoked := true, named_invoked := false,
    callee_readonly_flag := some b,
    callee_callstack := some (w.caller_chain ++ [w.caller_addr]) }

/-- Reduction of `contract_call` to its invoke tail when resolution,
instantiation, the permission step (returning declared flag `b`) and the
callstack guard all succeed. -/
theorem contract_call_guarded (w : CallWorld) (fn : String) (ds : List Bytes) (ce : Bytes)
    (b : Bool)
    (hds : w.read_inputs = .ok ds)
    (hgas : wrapping_add w.host_used_gas w.host_instantiate_cost ≤ w.caller_gas_left)
    (hgo : w.host_go_ok = true)
    (hce : w.host_contract_env = some ce)
    (hcache : w.host_cache_ok = true)
    (hck : w.host_checksum_ok = true)
    (hinst : w.get_instance = .ok ())
    (hperm : get_read_write_permission w.perm w.caller_readonly fn = .ok b)
    (hcs : w.callstack_pass = .ok ()) :
    contract_call w fn = contract_call_invoke w (guarded_gas w) (guarded_effects w b) ds := by
  simp [contract_call, hds, hgas, hgo, hce, hcache, hck, hinst, hperm, hcs,
    checked_sub, GasInfo.with_cost, guarded_gas, guarded_effects]

/-- The invoke tail never changes the callee storage-readonly flag or the
installed callstack recorded in the effects. -/
theorem contract_call_invoke_preserves (w : CallWorld) (gi : GasInfo) (eff : CallEffects)
    (ds : List Bytes) :
    (contract_call_invoke w gi eff ds).effects.callee_readonly_flag = eff.callee_readonly_flag
    ∧ (contract_call_invoke w gi eff ds).effects.callee_callstack = eff.callee_callstack
    ∧ (contract_call_invoke w gi eff ds).effects.instantiated = eff.instantiated
    ∧ (contract_call_invoke w gi eff ds).effects.gas_limit_given = eff.gas_limit_given := by
  unfold contract_call_invoke
  cases h0 : w.write_to_callee 0 <;> simp
  cases h1 : write_vals w.write_to_callee 1 ds <;> simp
  cases h2 : w.call_fn <;> simp
  case ok.ok.ok rets =>
    cases h3 : w.read_outputs <;> simp
    case ok outs =>
      cases h4 : write_vals w.write_to_caller 0 outs <;> simp

/-- A permission world whose introspection succeeds and parses to `props`. -/
def perm_of (props : List (String × Bool)) : PermissionWorld :=
  { introspection_call := .ok [1], introspection_read := .ok [[2]],
    parsed_props := .ok props }

/-- A world in which every collaborator call succeeds: host resolution
reports gas 3 and instantiate cost 7, the caller has 100 gas and is
read-write, the callee declares the function "f" read-only, and the callee
reports 5 internally metered gas. -/
def cw_base : CallWorld :=
  { read_inputs := .ok [[1]],
    host_go_ok := true,
    host_err_msg := "",
    host_used_gas := 3,
    host_instantiate_cost := 7,
    host_contract_env := some [5],
    host_cache_ok := true,
    host_checksum_ok := true,
    caller_gas_left := 100,
    caller_readonly := false,
    caller_chain := ["a"],
    caller_addr := "b",
    get_instance := .ok (),
    perm := perm_of [("f", true)],
    callstack_pass := .ok (),
    write_to_callee := fun _ => .ok 0,
    call_fn := .ok [9],
    read_outputs := .ok [[3]],
    write_to_caller := fun _ => .ok 1,
    callee_used_internally := 5 }

/-- C1: in every dynamic-link call in which the caller is ReadOnly and the
callee declares the named function read-write (`is_read_only = false`) in
its callable-points-properties map, `contract_call` returns the
permission-escalation dynamic-link error, the named callee function is
never invoked, and only the introspection entry point runs. -/
theorem c1_readonly_caller_escalation
    (w : CallWorld) (fn : String) (ds : List Bytes) (ce : Bytes)
    (rs : List Nat) (bs : List Bytes) (props : List (String × Bool))
    (hds : w.read_inputs = .ok ds)
    (hgas : w.host_used_gas + w.host_instantiate_cost ≤ w.caller_gas_left)
    (hgo : w.host_go_ok = true)
    (hce : w.host_contract_env = some ce)
    (hcache : w.host_cache_ok = true)
    (hck : w.host_checksum_ok = true)
    (hinst : w.get_instance = .ok ())
    (hic : w.perm.introspection_call = .ok rs)
    (hir : w.perm.introspection_read = .ok bs)
    (hpp : w.perm.parsed_props = .ok props)
    (hro : w.caller_readonly = true)
    (hdecl : lookup_prop props fn = some false) :
    (contract_call w fn).ret = .error (.dynamicLinkErr
      "It is not possible to inherit from read-only permission to read-write permission")
    ∧ (contract_call w fn).effects.named_invoked = false
    ∧ (contract_call w fn).effects.introspection_invoked = true
    ∧ (contract_call w fn).effects.instantiated = true := by
  have hperm : get_read_write_permission w.perm w.caller_readonly fn = .error (.dynamicLinkErr
      "It is not possible to inherit from read-only permission to read-write permission") := by
    simp [get_read_write_permission, hic, hir, hpp, hdecl, hro]
  have hw : wrapping_add w.host_used_gas w.host_instantiate_cost ≤ w.caller_gas_left :=
    le_trans (wrapping_add_le_sum _ _) hgas
  simp [contract_call, hds, hw, hgo, hce, hcache, hck, hinst, hperm, checked_sub]

/-- A caller-ReadOnly world whose callee declares "f" read-write. -/
def cw_c1 : CallWorld :=
  { cw_base with caller_readonly := true, perm := perm_of [("f", false)] }

theorem c1_witness :
    cw_c1.read_inputs = .ok [[1]]
    ∧ cw_c1.host_used_gas + cw_c1.host_instantiate_cost ≤ cw_c1.caller_gas_left
    ∧ cw_c1.host_go_ok = true
    ∧ cw_c1.host_contract_env = some [5]
    ∧ cw_c1.host_cache_ok = true
    ∧ cw_c1.host_checksum_ok = true
    ∧ cw_c1.get_instance = .ok ()
    ∧ cw_c1.perm.introspection_call = .ok [1]
    ∧ cw_c1.perm.introspection_read = .ok [[2]]
    ∧ cw_c1.perm.parsed_props = .ok [("f", false)]
    ∧ cw_c1.caller_readonly = true
    ∧ lookup_prop [("f", false)] "f" = some false
    ∧ ((contract_call cw_c1 "f").ret = .error (.dynamicLinkErr
        "It is not possible to inherit from read-only permission to read-write permission")
      ∧ (contract_call cw_c1 "f").effects.named_invoked = false
      ∧ (contract_call cw_c1 "f").effects.introspection_invoked = true
      ∧ (contract_call cw_c1 "f").effects.instantiated = true) :=
  ⟨rfl, by decide, rfl, rfl, rfl, rfl, rfl, rfl, rfl, rfl, rfl, by decide,
   c1_readonly_caller_escalation cw_c1 "f" [[1]] [5] [1] [[2]] [("f", false)]
     rfl (by decide) rfl rfl rfl rfl rfl rfl rfl rfl rfl (by decide)⟩

/-- C2: in every dynamic-link call whose caller is ReadWrite
(`is_storage_readonly() = false`), the callee storage-readonly flag after
the permission step equals exactly the `is_read_only` value the callee
declares for the invoked function — for either declared value, so it is
never copied from the caller flag. -/
theorem c2_readwrite_caller_callee_flag
    (w : CallWorld) (fn : String) (ds : List Bytes) (ce : Bytes)
    (rs : List Nat) (bs : List Bytes) (props : List (String × Bool)) (b : Bool)
    (hds : w.read_inputs = .ok ds)
    (hgas : w.host_used_gas + w.host_instantiate_cost ≤ w.caller_gas_left)
    (hgo : w.host_go_ok = true)
    (hce : w.host_contract_env = some ce)
    (hcache : w.host_cache_ok = true)
    (hck : w.host_checksum_ok = true)
    (hinst : w.get_instance = .ok ())
    (hic : w.perm.introspection_call = .ok rs)
    (hir : w.perm.introspection_read = .ok bs)
    (hpp : w.perm.parsed_props = .ok props)
    (hrw : w.caller_readonly = false)
    (hdecl : lookup_prop props fn = some b) :
    (contract_call w fn).effects.callee_readonly_flag = some b := by
  have hperm : get_read_write_permission w.perm w.caller_readonly fn = .ok b := by
    simp [get_read_write_permission, hic, hir, hpp, hdecl, hrw]
  have hw : wrapping_add w.host_used_gas w.host_instantiate_cost ≤ w.caller_gas_left :=
    le_trans (wrapping_add_le_sum _ _) hgas
  cases hcs : w.callstack_pass with
  | error e =>
    simp [contract_call, hds, hw, hgo, hce, hcache, hck, hinst, hperm, hcs, checked_sub]
  | ok u =>
    rw [contract_call_guarded w fn ds ce b hds (le_trans (wrapping_add_le_sum _ _) hgas) hgo hce hcache hck hinst hperm
      (by cases u; exact hcs)]
    rw [(contract_call_invoke_preserves w (guarded_gas w) (guarded_effects w b) ds).1]
    rfl

/-- A caller-ReadWrite world whose callee declares "f" read-write
(`is_read_only = false`), exercising that the callee flag becomes the
declared false rather than anything inherited. -/
def cw_c2 : CallWorld :=
  { cw_base with perm := perm_of [("f", false)] }

theorem c2_witness :
    cw_c2.read_inputs = .ok [[1]]
    ∧ cw_c2.host_used_gas + cw_c2.host_instantiate_cost ≤ cw_c2.caller_gas_left
    ∧ cw_c2.host_go_ok = true
    ∧ cw_c2.host_contract_env = some [5]
    ∧ cw_c2.host_cache_ok = true
    ∧ cw_c2.host_checksum_ok = true
    ∧ cw_c2.get_instance = .ok ()
    ∧ cw_c2.perm.introspection_call = .ok [1]
    ∧ cw_c2.perm.introspection_read = .ok [[2]]
    ∧ cw_c2.perm.parsed_props = .ok [("f", false)]
    ∧ cw_c2.caller_readonly = false
    ∧ lookup_prop [("f", false)] "f" = some false
    ∧ (contract_call cw_c2 "f").effects.callee_readonly_flag = some false :=
  ⟨rfl, by decide, rfl, rfl, rfl, rfl, rfl, rfl, rfl, rfl, rfl, by decide,
   c2_readwrite_caller_callee_flag cw_c2 "f" [[1]] [5] [1] [[2]] [("f", false)] false
     rfl (by decide) rfl rfl rfl rfl rfl rfl rfl rfl rfl (by decide)⟩

/-- A world identical to `cw_base` except that reading the callee return
regions fails with the over-budget marshaling error. -/
def cw_c3 : CallWorld :=
  { cw_base with read_outputs := .error .overBudget }

/-- C3 counterexample: in `cw_c3` the callee instance was successfully
instantiated and the named export ran (metering 5 internally), result
marshaling then failed, and the GasInfo returned to the caller reports only
the resolution gas plus the instantiate cost (3 + 7 = 10): the callee
internally-metered usage is dropped, so the gas reported is less than the
gas consumed up to the failure point. -/
theorem c3_counterexample :
    (contract_call cw_c3 "f").effects.instantiated = true
    ∧ (contract_call cw_c3 "f").effects.named_invoked = true
    ∧ (contract_call cw_c3 "f").ret
        = .error (.dynamicLinkErr "regions length exceeds the maximum")
    ∧ cw_c3.callee_used_internally = 5
    ∧ (contract_call cw_c3 "f").gas.cost = 10 :=
  ⟨rfl, rfl, rfl, rfl, rfl⟩

/-- C3 amended: once the callee instance is instantiated the returned
GasInfo always contains the resolution gas plus the instantiate cost; the
callee internally-metered usage is additionally folded in exactly on the
two paths that flow through the `gas_info.cost += ..used_internally` fold —
the success path and a failing guest call — while the early returns on an
argument-marshaling or result-marshaling failure skip the fold. -/
theorem c3_gas_folding
    (w : CallWorld) (fn : String) (ds : List Bytes) (ce : Bytes) (b : Bool)
    (hds : w.read_inputs = .ok ds)
    (hgas : w.host_used_gas + w.host_instantiate_cost ≤ w.caller_gas_left)
    (hgo : w.host_go_ok = true)
    (hce : w.host_contract_env = some ce)
    (hcache : w.host_cache_ok = true)
    (hck : w.host_checksum_ok = true)
    (hinst : w.get_instance = .ok ())
    (hperm : get_read_write_permission w.perm w.caller_readonly fn = .ok b)
    (hcs : w.callstack_pass = .ok ()) :
    (∀ e, w.write_to_callee 0 = .error e →
      (contract_call w fn).gas.cost = w.host_used_gas + w.host_instantiate_cost)
    ∧ (∀ p e, w.write_to_callee 0 = .ok p →
        write_vals w.write_to_callee 1 ds = .error e →
        (contract_call w fn).gas.cost = w.host_used_gas + w.host_instantiate_cost)
    ∧ (∀ p ps e, w.write_to_callee 0 = .ok p →
        write_vals w.write_to_callee 1 ds = .ok ps → w.call_fn = .error e →
        (contract_call w fn).gas.cost
          = w.host_used_gas + w.host_instantiate_cost + w.callee_used_internally)
    ∧ (∀ p ps rets e, w.write_to_callee 0 = .ok p →
        write_vals w.write_to_callee 1 ds = .ok ps → w.call_fn = .ok rets →
        w.read_outputs = .error e →
        (contract_call w fn).gas.cost = w.host_used_gas + w.host_instantiate_cost)
    ∧ (∀ p ps rets outs e, w.write_to_callee 0 = .ok p →
        write_vals w.write_to_callee 1 ds = .ok ps → w.call_fn = .ok rets →
        w.read_outputs = .ok outs → write_vals w.write_to_caller 0 outs = .error e →
        (contract_call w fn).gas.cost = w.host_used_gas + w.host_instantiate_cost)
    ∧ (∀ p ps rets outs qs, w.write_to_callee 0 = .ok p →
        write_vals w.write_to_callee 1 ds = .ok ps → w.call_fn = .ok rets →
        w.read_outputs = .ok outs → write_vals w.write_to_caller 0 outs = .ok qs →
        (contract_call w fn).gas.cost
          = w.host_used_gas + w.host_instantiate_cost + w.callee_used_internally) := by
  rw [contract_call_guarded w fn ds ce b hds (le_trans (wrapping_add_le_sum _ _) hgas) hgo hce hcache hck hinst hperm hcs]
  refine ⟨?_, ?_, ?_, ?_, ?_, ?_⟩
  · intro e h0
    simp [contract_call_invoke, h0, guarded_gas]
  · intro p e h0 h1
    simp [contract_call_invoke, h0, h1, guarded_gas]
  · intro p ps e h0 h1 h2
    simp [contract_call_invoke, h0, h1, h2, guarded_gas]
  · intro p ps rets e h0 h1 h2 h3
    simp [contract_call_invoke, h0, h1, h2, h3, guarded_gas]
  · intro p ps rets outs e h0 h1 h2 h3 h4
    simp [contract_call_invoke, h0, h1, h2, h3, h4, guarded_gas]
  · intro p ps rets outs qs h0 h1 h2 h3 h4
    simp [contract_call_invoke, h0, h1, h2, h3, h4, guarded_gas]

theorem c3_witness :
    cw_base.read_inputs = .ok [[1]]
    ∧ cw_base.host_used_gas + cw_base.host_instantiate_cost ≤ cw_base.caller_gas_left
    ∧ cw_base.host_go_ok = true
    ∧ cw_base.host_contract_env = some [5]
    ∧ cw_base.host_cache_ok = true
    ∧ cw_base.host_checksum_ok = true
    ∧ cw_base.get_instance = .ok ()
    ∧ get_read_write_permission cw_base.perm cw_base.caller_readonly "f" = .ok true
    ∧ cw_base.callstack_pass = .ok ()
    ∧ cw_base.write_to_callee 0 = .ok 0
    ∧ write_vals cw_base.write_to_callee 1 [[1]] = .ok [0]
    ∧ cw_base.call_fn = .ok [9]
    ∧ cw_base.read_outputs = .ok [[3]]
    ∧ write_vals cw_base.write_to_caller 0 [[3]] = .ok [1]
    ∧ (contract_call cw_base "f").gas.cost
        = cw_base.host_used_gas + cw_base.host_instantiate_cost
          + cw_base.callee_used_internally :=
  ⟨rfl, by decide, rfl, rfl, rfl, rfl, rfl, rfl, rfl, rfl, rfl, rfl, rfl, rfl,
   (c3_gas_folding cw_base "f" [[1]] [5] true rfl (by decide) rfl rfl rfl rfl rfl rfl
      rfl).2.2.2.2.2 0 [0] [9] [[3]] [1] rfl rfl rfl rfl rfl⟩

/-- A world whose host-reported costs sum to exactly 2^64: `used_gas` and
`instantiate_cost` are both 2^63, with 100 gas left in the caller; every
other collaborator call succeeds as in `cw_base`. -/
def cw_c4wrap : CallWorld :=
  { cw_base with
    host_used_gas := 9223372036854775808,
    host_instantiate_cost := 9223372036854775808 }

/-- C4 counterexample: in `cw_c4wrap` the caller remaining gas (100) is far
below the resolution cost the host reports (2^63 + 2^63 = 2^64), so per the
claim the subtraction underflows and the call must fail out-of-gas before
the callee instance is created — yet the release-build u64 addition
`used_gas + instantiate_cost` wraps to 0, `checked_sub` succeeds, the
callee is instantiated with the bogus budget 100, and the call runs to
completion. -/
theorem c4_counterexample :
    cw_c4wrap.caller_gas_left
        < cw_c4wrap.host_used_gas + cw_c4wrap.host_instantiate_cost
    ∧ (contract_call cw_c4wrap "f").effects.instantiated = true
    ∧ (contract_call cw_c4wrap "f").effects.gas_limit_given = some 100
    ∧ (contract_call cw_c4wrap "f").ret = .ok [1] :=
  ⟨by decide, rfl, rfl, rfl⟩

/-- C4 amended: the callee gas budget handed to `get_instance` is the
caller remaining gas minus the u64-wrapping sum of the two costs the host
resolution call reports (`used_gas + instantiate_cost`, reduced mod 2^64 as
a release build computes it); when the checked subtraction of that wrapped
sum underflows, `contract_call` fails with out-of-gas before the callee
instance is created and before any callee guest code (including the
introspection export) executes.  Whenever the reported costs do not
overflow u64, the wrapped sum is the plain sum, so the budget is exactly
the claimed `caller_remaining_gas - resolution_cost`. -/
theorem c4_gas_budget (w : CallWorld) (fn : String) :
    (∀ ds, w.read_inputs = .ok ds →
      w.caller_gas_left < wrapping_add w.host_used_gas w.host_instantiate_cost →
      (contract_call w fn).ret = .error .outOfGas
      ∧ (contract_call w fn).gas = GasInfo.with_cost w.host_used_gas
      ∧ (contract_call w fn).effects.instantiated = false
      ∧ (contract_call w fn).effects.gas_limit_given = none
      ∧ (contract_call w fn).effects.introspection_invoked = false
      ∧ (contract_call w fn).effects.named_invoked = false)
    ∧ (∀ ds ce, w.read_inputs = .ok ds →
        wrapping_add w.host_used_gas w.host_instantiate_cost ≤ w.caller_gas_left →
        w.host_go_ok = true → w.host_contract_env = some ce →
        w.host_cache_ok = true → w.host_checksum_ok = true →
        (contract_call w fn).effects.gas_limit_given
          = some (w.caller_gas_left
              - wrapping_add w.host_used_gas w.host_instantiate_cost))
    ∧ (w.host_used_gas + w.host_instantiate_cost < U64_MOD →
        wrapping_add w.host_used_gas w.host_instantiate_cost
          = w.host_used_gas + w.host_instantiate_cost) := by
  refine ⟨?_, ?_, ?_⟩
  · intro ds hds hlt
    simp [contract_call, hds, checked_sub, Nat.not_le.mpr hlt, CallEffects.init]
  · intro ds ce hds hgas hgo hce hcache hck
    cases hinst : w.get_instance with
    | error e =>
      simp [contract_call, hds, hgas, hgo, hce, hcache, hck, hinst, checked_sub,
        CallEffects.init]
    | ok u =>
      cases u
      cases hperm : get_read_write_permission w.perm w.caller_readonly fn with
      | error e =>
        simp [contract_call, hds, hgas, hgo, hce, hcache, hck, hinst, hperm, checked_sub]
      | ok b =>
        cases hcs : w.callstack_pass with
        | error e =>
          simp [contract_call, hds, hgas, hgo, hce, hcache, hck, hinst, hperm, hcs,
            checked_sub]
        | ok v =>
          cases v
          rw [contract_call_guarded w fn ds ce b hds hgas hgo hce hcache hck hinst hperm
            hcs]
          rw [(contract_call_invoke_preserves w (guarded_gas w) (guarded_effects w b)
            ds).2.2.2]
          rfl
  · intro hno
    simp [wrapping_add, Nat.mod_eq_of_lt hno]

/-- A world in which the caller has less gas left (5) than the wrapped cost
the host resolution reports (3 + 7 = 10, far below 2^64). -/
def cw_c4 : CallWorld :=
  { cw_base with caller_gas_left := 5 }

theorem c4_witness :
    (cw_c4.read_inputs = .ok [[1]]
      ∧ cw_c4.caller_gas_left < wrapping_add cw_c4.host_used_gas cw_c4.host_instantiate_cost
      ∧ (contract_call cw_c4 "f").ret = .error .outOfGas
      ∧ (contract_call cw_c4 "f").effects.instantiated = false
      ∧ (contract_call cw_c4 "f").effects.introspection_invoked = false)
    ∧ (cw_base.read_inputs = .ok [[1]]
      ∧ wrapping_add cw_base.host_used_gas cw_base.host_instantiate_cost
          ≤ cw_base.caller_gas_left
      ∧ (contract_call cw_base "f").effects.gas_limit_given = some 90)
    ∧ (cw_base.host_used_gas + cw_base.host_instantiate_cost < U64_MOD
      ∧ wrapping_add cw_base.host_used_gas cw_base.host_instantiate_cost
          = cw_base.host_used_gas + cw_base.host_instantiate_cost) :=
  ⟨⟨rfl, by decide,
    ((c4_gas_budget cw_c4 "f").1 [[1]] rfl (by decide)).1,
    ((c4_gas_budget cw_c4 "f").1 [[1]] rfl (by decide)).2.2.1,
    ((c4_gas_budget cw_c4 "f").1 [[1]] rfl (by decide)).2.2.2.2.1⟩,
   ⟨rfl, by decide,
    (c4_gas_budget cw_base "f").2.1 [[1]] [5] rfl (by decide) rfl rfl rfl rfl⟩,
   ⟨by decide,
    (c4_gas_budget cw_base "f").2.2 (by decide)⟩⟩

/-- C5: for every dynamic-link call that passes the callstack guard, the
callee Environment receives the call chain equal to the caller chain
extended by exactly the caller address; when the guard rejects, the call
fails with a user-level error (`user_err`, not a fault) before the named
export is invoked.  The chain installed on success is modelled from the
spec, since `try_pass_callstack` lives in the cosmwasm-vm dependency; the
rejection path and its error kind are from `contract_call` itself. -/
theorem c5_callstack_discipline
    (w : CallWorld) (fn : String) (ds : List Bytes) (ce : Bytes) (b : Bool)
    (hds : w.read_inputs = .ok ds)
    (hgas : w.host_used_gas + w.host_instantiate_cost ≤ w.caller_gas_left)
    (hgo : w.host_go_ok = true)
    (hce : w.host_contract_env = some ce)
    (hcache : w.host_cache_ok = true)
    (hck : w.host_checksum_ok = true)
    (hinst : w.get_instance = .ok ())
    (hperm : get_read_write_permission w.perm w.caller_readonly fn = .ok b) :
    (w.callstack_pass = .ok () →
      (contract_call w fn).effects.callee_callstack
        = some (w.caller_chain ++ [w.caller_addr]))
    ∧ (∀ e, w.callstack_pass = .error e →
        (contract_call w fn).ret = .error (.userErr e)
        ∧ (contract_call w fn).effects.named_invoked = false
        ∧ (contract_call w fn).effects.callee_callstack = none) := by
  constructor
  · intro hcs
    rw [contract_call_guarded w fn ds ce b hds (le_trans (wrapping_add_le_sum _ _) hgas) hgo hce hcache hck hinst hperm hcs]
    rw [(contract_call_invoke_preserves w (guarded_gas w) (guarded_effects w b) ds).2.1]
    rfl
  · intro e hcs
    have hw : wrapping_add w.host_used_gas w.host_instantiate_cost ≤ w.caller_gas_left :=
      le_trans (wrapping_add_le_sum _ _) hgas
    simp [contract_call, hds, hw, hgo, hce, hcache, hck, hinst, hperm, hcs, checked_sub]

/-- A world whose callstack guard rejects. -/
def cw_c5 : CallWorld :=
  { cw_base with callstack_pass := .error "invalid callstack" }

theorem c5_witness :
    (cw_base.callstack_pass = .ok ()
      ∧ (contract_call cw_base "f").effects.callee_callstack = some ["a", "b"])
    ∧ (cw_c5.callstack_pass = .error "invalid callstack"
      ∧ (contract_call cw_c5 "f").ret = .error (.userErr "invalid callstack")
      ∧ (contract_call cw_c5 "f").effects.named_invoked = false) :=
  ⟨⟨rfl,
    (c5_callstack_discipline cw_base "f" [[1]] [5] true rfl (by decide) rfl rfl rfl rfl
      rfl rfl).1 rfl⟩,
   ⟨rfl,
    ((c5_callstack_discipline cw_c5 "f" [[1]] [5] true rfl (by decide) rfl rfl rfl rfl
      rfl rfl).2 "invalid callstack" rfl).1,
    ((c5_callstack_discipline cw_c5 "f" [[1]] [5] true rfl (by decide) rfl rfl rfl rfl
      rfl rfl).2 "invalid callstack" rfl).2.1⟩⟩

/-- C6: every exported foreign entry point — init_cache, save_wasm,
load_wasm, pin, unpin, analyze_code and call_callable_point — runs its body
inside the `catch_unwind` fault boundary, so an unexpected unwind never
escapes the entry point: it is converted into the typed `Error::panic()`
value written into the error-message out-parameter, while the entry point
returns its default value. -/
theorem c6_entry_points_convert_unwinds :
    ffi_init_cache .panics = (none, some .panicErr)
    ∧ ffi_save_wasm true .panics = ([], some .panicErr)
    ∧ ffi_load_wasm true .panics = ([], some .panicErr)
    ∧ ffi_pin true .panics = ((), some .panicErr)
    ∧ ffi_unpin true .panics = ((), some .panicErr)
    ∧ ffi_analyze_code true .panics = (false, some .panicErr)
    ∧ ffi_call_callable_point true .panics = (none, some .panicErr) :=
  ⟨rfl, rfl, rfl, rfl, rfl, rfl, rfl⟩

/-- C7: every marshaling failure in a dynamic-link call is surfaced to the
caller as a dynamic-link error, whichever the failure mode (region out of
bounds, cumulative length over the 64 MiB budget, destination allocation
failure, or any other) and whichever the direction: reading the caller
argument regions, writing them into the callee, reading the callee return
regions, and writing the results back into the caller. -/
theorem c7_marshal_failures_are_dynamic_link (w : CallWorld) (fn : String) :
    (∀ e, w.read_inputs = .error e →
      (contract_call w fn).ret = .error (.dynamicLinkErr e.msg)
      ∧ (contract_call w fn).gas = GasInfo.free)
    ∧ (∀ ds ce b, w.read_inputs = .ok ds →
        w.host_used_gas + w.host_instantiate_cost ≤ w.caller_gas_left →
        w.host_go_ok = true → w.host_contract_env = some ce →
        w.host_cache_ok = true → w.host_checksum_ok = true →
        w.get_instance = .ok () →
        get_read_write_permission w.perm w.caller_readonly fn = .ok b →
        w.callstack_pass = .ok () →
        ((∀ e, w.write_to_callee 0 = .error e →
            (contract_call w fn).ret = .error (.dynamicLinkErr e.msg))
          ∧ (∀ p e, w.write_to_callee 0 = .ok p →
              write_vals w.write_to_callee 1 ds = .error e →
              (contract_call w fn).ret = .error (.dynamicLinkErr e.msg))
          ∧ (∀ p ps rets e, w.write_to_callee 0 = .ok p →
              write_vals w.write_to_callee 1 ds = .ok ps → w.call_fn = .ok rets →
              w.read_outputs = .error e →
              (contract_call w fn).ret = .error (.dynamicLinkErr e.msg))
          ∧ (∀ p ps rets outs e, w.write_to_callee 0 = .ok p →
              write_vals w.write_to_callee 1 ds = .ok ps → w.call_fn = .ok rets →
              w.read_outputs = .ok outs →
              write_vals w.write_to_caller 0 outs = .error e →
              (contract_call w fn).ret = .error (.dynamicLinkErr e.msg)))) := by
  constructor
  · intro e hre
    simp [contract_call, hre]
  · intro ds ce b hds hgas hgo hce hcache hck hinst hperm hcs
    rw [contract_call_guarded w fn ds ce b hds (le_trans (wrapping_add_le_sum _ _) hgas) hgo hce hcache hck hinst hperm hcs]
    refine ⟨?_, ?_, ?_, ?_⟩
    · intro e h0
      simp [contract_call_invoke, h0]
    · intro p e h0 h1
      simp [contract_call_invoke, h0, h1]
    · intro p ps rets e h0 h1 h2 h3
      simp [contract_call_invoke, h0, h1, h2, h3]
    · intro p ps rets outs e h0 h1 h2 h3 h4
      simp [contract_call_invoke, h0, h1, h2, h3, h4]

/-- A world whose caller argument regions are out of bounds. -/
def cw_c7r : CallWorld :=
  { cw_base with read_inputs := .error .outOfBounds }

/-- A world whose writes into the callee fail allocation. -/
def cw_c7w : CallWorld :=
  { cw_base with write_to_callee := fun _ => .error .allocFail }

theorem c7_witness :
    (cw_c7r.read_inputs = .error .outOfBounds
      ∧ (contract_call cw_c7r "f").ret = .error (.dynamicLinkErr "region out of bounds")
      ∧ (contract_call cw_c7r "f").gas = GasInfo.free)
    ∧ (cw_c7w.write_to_callee 0 = .error .allocFail
      ∧ (contract_call cw_c7w "f").ret = .error (.dynamicLinkErr "allocation failed")) :=
  ⟨⟨rfl,
    ((c7_marshal_failures_are_dynamic_link cw_c7r "f").1 .outOfBounds rfl).1,
    ((c7_marshal_failures_are_dynamic_link cw_c7r "f").1 .outOfBounds rfl).2⟩,
   ⟨rfl,
    ((c7_marshal_failures_are_dynamic_link cw_c7w "f").2 [[1]] [5] true rfl (by decide)
      rfl rfl rfl rfl rfl rfl rfl).1 .allocFail rfl⟩⟩

/-- C8: unpinning a checksum that is not currently pinned — including one
the cache has never seen — succeeds and writes no error message, the cache
state is unchanged, and a second unpin immediately after the first yields
the same no-error outcome and the same state. -/
theorem c8_unpin_unpinned_is_noop (s : CacheState) (c : Bytes)
    (hnp : c ∉ s.pinned) (hlen : c.length = 32) :
    (unpin_with_state true s (some c)).2 = none
    ∧ (unpin_with_state true s (some c)).1 = s
    ∧ (unpin_with_state true (unpin_with_state true s (some c)).1 (some c)).2 = none
    ∧ (unpin_with_state true (unpin_with_state true s (some c)).1 (some c)).1
        = (unpin_with_state true s (some c)).1 := by
  have hfil : s.pinned.filter (fun x => !decide (x = c)) = s.pinned := by
    apply List.filter_eq_self.mpr
    intro a ha
    simp only [Bool.not_eq_true', decide_eq_false_iff_not]
    intro h
    exact hnp (h ▸ ha)
  have hone : unpin_with_state true s (some c) = (s, none) := by
    simp [unpin_with_state, do_unpin, hlen, cache_unpin, handle_c_error, hfil]
  rw [hone]
  exact ⟨rfl, rfl, (congrArg Prod.snd hone), (congrArg Prod.fst hone)⟩

/-- A cache with one pinned checksum, and a distinct never-pinned one. -/
def cs_c8 : CacheState := { pinned := [List.replicate 32 1] }

theorem c8_witness :
    (List.replicate 32 0 : Bytes) ∉ cs_c8.pinned
    ∧ (List.replicate 32 0 : Bytes).length = 32
    ∧ (unpin_with_state true cs_c8 (some (List.replicate 32 0))).2 = none
    ∧ (unpin_with_state true cs_c8 (some (List.replicate 32 0))).1 = cs_c8
    ∧ (unpin_with_state true (unpin_with_state true cs_c8 (some (List.replicate 32 0))).1
        (some (List.replicate 32 0))).2 = none :=
  ⟨by decide, by decide,
   (c8_unpin_unpinned_is_noop cs_c8 (List.replicate 32 0) (by decide) (by decide)).1,
   (c8_unpin_unpinned_is_noop cs_c8 (List.replicate 32 0) (by decide) (by decide)).2.1,
   (c8_unpin_unpinned_is_noop cs_c8 (List.replicate 32 0) (by decide) (by decide)).2.2.1⟩

/-- Reduction of `do_call_callable_point` to its result handling when every
step up to and including the guest call succeeds. -/
theorem ccp_reduction (ro : Bool) (w : CcpWorld)
    (nv : Bytes) (hn : w.name_view = some nv)
    (n : String) (hnp : w.name_parse = .ok n)
    (av : Bytes) (hav : w.args_view = some av)
    (args : List Bytes) (hap : w.args_parse = .ok args)
    (hg : w.gas_used_present = true)
    (cb : Bytes) (hcb : w.checksum_view = some cb) (hcl : cb.length = 32)
    (sv : Bytes) (hsv : w.callstack_view = some sv)
    (cs : List String) (hcs : w.callstack_parse = .ok cs)
    (ev : Bytes) (hev : w.env_view = some ev)
    (hgi : w.get_instance = .ok ())
    (hsc : w.set_callstack = .ok ())
    (hsp : w.set_permission = .ok ())
    (p : Nat) (hw0 : w.write_to_callee 0 = .ok p)
    (ps : List Nat) (hwl : write_vals w.write_to_callee 1 args = .ok ps)
    (rs : List Nat) (hcf : w.call_function = .ok rs) :
    do_call_callable_point ro w = ccp_handle_results ro w := by
  simp [do_call_callable_point, hn, hnp, hav, hap, hg, hcb, hcl, hsv, hcs, hev, hgi,
    hsc, hsp, hw0, hwl, hcf]

/-- A callable-point world in which every collaborator call succeeds: the
guest call returns one region whose marshaled value is the buffer 42, both
out-parameters are present and serialize fine, and the instance meters 4
internally. -/
def ccp_base : CcpWorld :=
  { name_view := some [10],
    name_parse := .ok "f",
    args_view := some [11],
    args_parse := .ok [[1]],
    gas_used_present := true,
    checksum_view := some (List.replicate 32 0),
    callstack_view := some [12],
    callstack_parse := .ok ["a"],
    env_view := some [13],
    get_instance := .ok (),
    set_callstack := .ok (),
    set_permission := .ok (),
    write_to_callee := fun _ => .ok 0,
    call_function := .ok [7],
    read_results := .ok [[42]],
    events_present := true,
    attributes_present := true,
    events_ser := .ok [8],
    attributes_ser := .ok [9],
    used_internally := 4 }

/-- The events/attributes proviso: when `is_readonly` is false, the events
and attributes out-parameters are present and their serializations
succeed — the condition the events section of `do_call_callable_point`
needs to complete after a successful arity check. -/
def ccp_events_ok (ro : Bool) (w : CcpWorld) : Prop :=
  ro = false → w.events_present = true ∧ w.attributes_present = true
    ∧ (∃ ev2, w.events_ser = .ok ev2) ∧ (∃ av2, w.attributes_ser = .ok av2)

/-- A world reaching the guest call with zero returned values, invoked with
`is_readonly = false` and an absent events out-parameter. -/
def ccp_c9 : CcpWorld :=
  { ccp_base with read_results := .ok [], events_present := false }

/-- C9 counterexample: `ccp_c9` reaches the guest call and the callable
point returns zero values, yet the result of `do_call_callable_point` is
not `Ok(None)` but the `empty_arg("events")` error, because with
`is_readonly = false` the events section still runs after the arity
handling and fails first. -/
theorem c9_counterexample :
    ccp_c9.call_function = .ok [7]
    ∧ ccp_c9.read_results = .ok []
    ∧ (do_call_callable_point false ccp_c9).result = .error (.emptyArg "events") :=
  ⟨rfl, rfl, rfl⟩

/-- C9 amended: for every invocation that reaches the guest call, provided
that when `is_readonly` is false the events and attributes out-parameters
are present and serialize successfully, the result is `Ok(None)` for zero
returned values and `Ok(Some(bytes))` for exactly one; two or more returned
values yield the dynamic-link error "unexpected more than 1 returning
values" unconditionally (the error propagates before the events section). -/
theorem c9_result_arity (ro : Bool) (w : CcpWorld)
    (nv : Bytes) (hn : w.name_view = some nv)
    (n : String) (hnp : w.name_parse = .ok n)
    (av : Bytes) (hav : w.args_view = some av)
    (args : List Bytes) (hap : w.args_parse = .ok args)
    (hg : w.gas_used_present = true)
    (cb : Bytes) (hcb : w.checksum_view = some cb) (hcl : cb.length = 32)
    (sv : Bytes) (hsv : w.callstack_view = some sv)
    (cs : List String) (hcs : w.callstack_parse = .ok cs)
    (ev : Bytes) (hev : w.env_view = some ev)
    (hgi : w.get_instance = .ok ())
    (hsc : w.set_callstack = .ok ())
    (hsp : w.set_permission = .ok ())
    (p : Nat) (hw0 : w.write_to_callee 0 = .ok p)
    (ps : List Nat) (hwl : write_vals w.write_to_callee 1 args = .ok ps)
    (rs : List Nat) (hcf : w.call_function = .ok rs) :
    (w.read_results = .ok [] → ccp_events_ok ro w →
      (do_call_callable_point ro w).result = .ok none)
    ∧ (∀ bb, w.read_results = .ok [bb] → ccp_events_ok ro w →
        (do_call_callable_point ro w).result = .ok (some bb))
    ∧ (∀ b1 b2 rest, w.read_results = .ok (b1 :: b2 :: rest) →
        (do_call_callable_point ro w).result
          = .error (.dynamicLinkErr "unexpected more than 1 returning values")) := by
  rw [ccp_reduction ro w nv hn n hnp av hav args hap hg cb hcb hcl sv hsv cs hcs ev hev
    hgi hsc hsp p hw0 ps hwl rs hcf]
  refine ⟨?_, ?_, ?_⟩
  · intro hres hep
    cases ro with
    | true => simp [ccp_handle_results, hres, ccp_finish]
    | false =>
      obtain ⟨he, ha, ⟨ev2, hev2⟩, ⟨av2, hav2⟩⟩ := hep rfl
      simp [ccp_handle_results, hres, ccp_finish, he, ha, hev2, hav2]
  · intro bb hres hep
    cases ro with
    | true => simp [ccp_handle_results, hres, ccp_finish]
    | false =>
      obtain ⟨he, ha, ⟨ev2, hev2⟩, ⟨av2, hav2⟩⟩ := hep rfl
      simp [ccp_handle_results, hres, ccp_finish, he, ha, hev2, hav2]
  · intro b1 b2 rest hres
    simp [ccp_handle_results, hres, CcpOut.fail]

theorem c9_witness :
    ccp_base.read_results = .ok [[42]]
    ∧ ccp_events_ok false ccp_base
    ∧ (do_call_callable_point false ccp_base).result = .ok (some [42]) :=
  ⟨rfl, fun _ => ⟨rfl, rfl, ⟨[8], rfl⟩, ⟨[9], rfl⟩⟩,
   (c9_result_arity false ccp_base [10] rfl "f" rfl [11] rfl [[1]] rfl rfl
      (List.replicate 32 0) rfl (by decide) [12] rfl ["a"] rfl [13] rfl rfl rfl rfl
      0 rfl [0] rfl [7] rfl).2.1 [42] rfl
     (fun _ => ⟨rfl, rfl, ⟨[8], rfl⟩, ⟨[9], rfl⟩⟩)⟩

/-- C10: for every call of `do_call_callable_point` that reaches the guest
call with at most one returned value, when `is_readonly` is true the events
and attributes out-parameters are never written (and the call completes,
writing the gas out-parameter); they are serialized and written back only
when `is_readonly` is false, in which case an absent events or attributes
out-parameter is the `empty_arg` error. -/
theorem c10_events_frame (ro : Bool) (w : CcpWorld)
    (nv : Bytes) (hn : w.name_view = some nv)
    (n : String) (hnp : w.name_parse = .ok n)
    (av : Bytes) (hav : w.args_view = some av)
    (args : List Bytes) (hap : w.args_parse = .ok args)
    (hg : w.gas_used_present = true)
    (cb : Bytes) (hcb : w.checksum_view = some cb) (hcl : cb.length = 32)
    (sv : Bytes) (hsv : w.callstack_view = some sv)
    (cs : List String) (hcs : w.callstack_parse = .ok cs)
    (ev : Bytes) (hev : w.env_view = some ev)
    (hgi : w.get_instance = .ok ())
    (hsc : w.set_callstack = .ok ())
    (hsp : w.set_permission = .ok ())
    (p : Nat) (hw0 : w.write_to_callee 0 = .ok p)
    (ps : List Nat) (hwl : write_vals w.write_to_callee 1 args = .ok ps)
    (rs : List Nat) (hcf : w.call_function = .ok rs)
    (rds : List Bytes) (hres : w.read_results = .ok rds)
    (harity : rds.length ≤ 1) :
    (ro = true →
      (do_call_callable_point ro w).events_out = none
      ∧ (do_call_callable_point ro w).attributes_out = none
      ∧ (do_call_callable_point ro w).gas_used_out = some w.used_internally)
    ∧ (ro = false → w.events_present = false →
        (do_call_callable_point ro w).result = .error (.emptyArg "events")
        ∧ (do_call_callable_point ro w).events_out = none
        ∧ (do_call_callable_point ro w).attributes_out = none)
    ∧ (ro = false → w.events_present = true → w.attributes_present = false →
        (do_call_callable_point ro w).result = .error (.emptyArg "attributes"))
    ∧ (∀ ev2 av2, ro = false → w.events_present = true → w.attributes_present = true →
        w.events_ser = .ok ev2 → w.attributes_ser = .ok av2 →
        (do_call_callable_point ro w).events_out = some ev2
        ∧ (do_call_callable_point ro w).attributes_out = some av2) := by
  rw [ccp_reduction ro w nv hn n hnp av hav args hap hg cb hcb hcl sv hsv cs hcs ev hev
    hgi hsc hsp p hw0 ps hwl rs hcf]
  rcases rds with _ | ⟨bb, rest⟩
  · refine ⟨?_, ?_, ?_, ?_⟩
    · intro hro
      subst hro
      simp [ccp_handle_results, hres, ccp_finish]
    · intro hro hep
      subst hro
      simp [ccp_handle_results, hres, ccp_finish, hep, CcpOut.fail]
    · intro hro hep hatt
      subst hro
      simp [ccp_handle_results, hres, ccp_finish, hep, hatt, CcpOut.fail]
    · intro ev2 av2 hro hep hatt hev2 hav2
      subst hro
      simp [ccp_handle_results, hres, ccp_finish, hep, hatt, hev2, hav2]
  · rcases rest with _ | ⟨b2, rest2⟩
    · refine ⟨?_, ?_, ?_, ?_⟩
      · intro hro
        subst hro
        simp [ccp_handle_results, hres, ccp_finish]
      · intro hro hep
        subst hro
        simp [ccp_handle_results, hres, ccp_finish, hep, CcpOut.fail]
      · intro hro hep hatt
        subst hro
        simp [ccp_handle_results, hres, ccp_finish, hep, hatt, CcpOut.fail]
      · intro ev2 av2 hro hep hatt hev2 hav2
        subst hro
        simp [ccp_handle_results, hres, ccp_finish, hep, hatt, hev2, hav2]
    · exfalso
      simp [List.length_cons] at harity

theorem c10_witness :
    ccp_base.read_results = .ok [[42]]
    ∧ ([[42]] : List Bytes).length ≤ 1
    ∧ (do_call_callable_point true ccp_base).events_out = none
    ∧ (do_call_callable_point true ccp_base).attributes_out = none
    ∧ (do_call_callable_point true ccp_base).gas_used_out = some 4 :=
  ⟨rfl, by decide,
   ((c10_events_frame true ccp_base [10] rfl "f" rfl [11] rfl [[1]] rfl rfl
      (List.replicate 32 0) rfl (by decide) [12] rfl ["a"] rfl [13] rfl rfl rfl rfl
      0 rfl [0] rfl [7] rfl [[42]] rfl (by decide)).1 rfl).1,
   ((c10_events_frame true ccp_base [10] rfl "f" rfl [11] rfl [[1]] rfl rfl
      (List.replicate 32 0) rfl (by decide) [12] rfl ["a"] rfl [13] rfl rfl rfl rfl
      0 rfl [0] rfl [7] rfl [[42]] rfl (by decide)).1 rfl).2.1,
   ((c10_events_frame true ccp_base [10] rfl "f" rfl [11] rfl [[1]] rfl rfl
      (List.replicate 32 0) rfl (by decide) [12] rfl ["a"] rfl [13] rfl rfl rfl rfl
      0 rfl [0] rfl [7] rfl [[42]] rfl (by decide)).1 rfl).2.2⟩

end Wasmvm
